/-
Verification of the data-directory migration and configuration-upgrade module
(`electroncash/migrate_data.py`).

The Python module is shallowly embedded below:
  * config dictionaries become association lists `Config` over a typed value
    universe `Value` covering every value shape the module reads or writes
    (strings, ints, booleans, lists of strings, lists of ints, and the
    (host, port, ssl) server tuples used for `cashfusion_server`);
  * the filesystem becomes an explicit `FS` record (a set of directory paths
    and a list of files), and the migration pipeline becomes a pure function
    from `FS` to an `Outcome` that carries the final filesystem, the trace of
    side-effecting actions performed, and the exception (if any) that
    propagated out of the pipeline;
  * fallible Python operations (uncaught exceptions) are modelled with
    `Except String`, the error string naming the Python exception class;
  * `os.path.normcase` is the identity on POSIX, which is the platform this
    module primarily targets (the `HOME`-based branch of `get_ec_user_dir`);
    it is kept as an explicit function so the definitions mirror the source.

External collaborators that are not part of the analysed sources
(`simple_config`, `network`, `version`, the fusion plugin defaults, and the
ambient environment lookups `get_user_dir` / `get_ec_user_dir`) are modelled
from the spec as explicit parameters (`Ext`, `Env`) or as small definitions
whose doc comments say so.
-/
import Mathlib

set_option autoImplicit false

/-- The universe of configuration values this module reads or writes.
`strlist` covers `recently_open` and the whitelist/blacklist entries,
`intlist` covers version tuples such as `latest_version_used`, and
`serverTuple` covers the `(host, port, ssl)` CashFusion server descriptors. -/
inductive Value where
  | str (s : String)
  | num (n : Int)
  | boolean (b : Bool)
  | strlist (l : List String)
  | intlist (l : List Int)
  | serverTuple (host : String) (port : Int) (ssl : Bool)
  deriving Repr, DecidableEq

/-- A Python `dict` with string keys, as an association list with unique keys
in insertion order (lookups take the first matching key, assignment replaces
the first matching key or appends a fresh one, exactly as a `dict` behaves). -/
abbrev Config := List (String × Value)

/-- `config.get(k)` / `config[k]` (successful case): first value bound to `k`. -/
def Config.get : Config → String → Option Value
  | [], _ => none
  | (k', v) :: rest, k => if k' = k then some v else Config.get rest k

/-- `config[k] = v`: replace the binding of `k` or append a new one. -/
def Config.set : Config → String → Value → Config
  | [], k, v => [(k, v)]
  | (k', v') :: rest, k, v =>
    if k' = k then (k, v) :: rest else (k', v') :: Config.set rest k v

/-- `config.pop(k, None)`: drop the binding of `k` (no error when absent). -/
def Config.pop : Config → String → Config
  | [], _ => []
  | (k', v') :: rest, k =>
    if k' = k then Config.pop rest k else (k', v') :: Config.pop rest k

theorem Config.get_set_self (c : Config) (k : String) (v : Value) :
    Config.get (Config.set c k v) k = some v := by
  induction c with
  | nil => simp [Config.set, Config.get]
  | cons kv rest ih =>
    by_cases h : kv.1 = k
    · simp [Config.set, Config.get, h]
    · simp [Config.set, Config.get, h, ih]

theorem Config.get_set_ne (c : Config) (k k' : String) (v : Value) (h : k ≠ k') :
    Config.get (Config.set c k v) k' = Config.get c k' := by
  induction c with
  | nil => simp [Config.set, Config.get, h]
  | cons kv rest ih =>
    by_cases hk : kv.1 = k
    · simp [Config.set, Config.get, hk, h]
    · by_cases hk' : kv.1 = k'
      · simp [Config.set, Config.get, hk, hk', Ne.symm h]
      · simp [Config.set, Config.get, hk, hk', ih]

theorem Config.get_pop_self (c : Config) (k : String) :
    Config.get (Config.pop c k) k = none := by
  induction c with
  | nil => simp [Config.pop, Config.get]
  | cons kv rest ih =>
    by_cases h : kv.1 = k
    · simp [Config.pop, Config.get, h, ih]
    · simp [Config.pop, Config.get, h, ih]

theorem Config.get_pop_ne (c : Config) (k k' : String) (h : k ≠ k') :
    Config.get (Config.pop c k) k' = Config.get c k' := by
  induction c with
  | nil => simp [Config.pop]
  | cons kv rest ih =>
    by_cases hk : kv.1 = k
    · have hk' : kv.1 ≠ k' := by rw [hk]; exact h
      simp [Config.pop, Config.get, hk, hk', ih, h]
    · by_cases hk' : kv.1 = k'
      · simp [Config.pop, Config.get, hk, hk', Ne.symm h]
      · simp [Config.pop, Config.get, hk, hk', ih]

/-- Python `str.replace` on character lists: replace non-overlapping
occurrences of `src` left to right. `fuel` bounds the recursion; with
`fuel ≥ l.length` the bound is never hit, so the function computes the
exact Python semantics (see `pyReplace`). -/
def pyReplaceAux (src dest : List Char) : Nat → List Char → List Char
  | _, [] => []
  | 0, l => l
  | Nat.succ f, c :: rest =>
    if src ≠ [] ∧ src.isPrefixOf (c :: rest) = true then
      dest ++ pyReplaceAux src dest f ((c :: rest).drop src.length)
    else
      c :: pyReplaceAux src dest f rest

/-- Python `s.replace(src, dest)`. The empty-pattern case inserts `dest`
before every character and at the end, as Python does. -/
def pyReplace (s src dest : String) : String :=
  if src.data = [] then
    ⟨dest.data ++ s.data.flatMap (fun c => c :: dest.data)⟩
  else
    ⟨pyReplaceAux src.data dest.data s.data.length s.data⟩

/-- Python `s.startswith(pre)`. -/
def strStartsWith (s pre : String) : Bool :=
  pre.data.isPrefixOf s.data

/-- `os.path.normcase` is the identity function on POSIX, the platform this
module primarily targets; kept explicit so definitions mirror the source. -/
def normcase (s : String) : String := s

/-- The body of the first loop of `replace_src_dest_in_config`: a
string-valued entry whose case-normalized form starts with `src` is replaced
by that form with every occurrence of `src` substituted by `dest`
(`norm_path.replace(norm_src, norm_dest)`); everything else is untouched. -/
def rewriteVal (norm_src norm_dest : String) : Value → Value
  | .str v =>
    let norm_path := normcase v
    if strStartsWith norm_path norm_src then .str (pyReplace norm_path norm_src norm_dest)
    else .str v
  | v => v

/-- `replace_src_dest_in_config(src, dest, config)` (migrate_data.py:84-101),
as a function from the old config to the mutated one.  The second loop
(`recently_open`) applies `normcase` + `replace` to every entry with no
`startswith` guard, exactly as the source does.  (A non-list
`recently_open` value, or a non-string list entry, would raise `TypeError`
in Python; configs never hold those shapes, and the model leaves them
unchanged.) -/
def replace_src_dest_in_config (src dest : String) (config : Config) : Config :=
  let norm_src := normcase src
  let norm_dest := normcase dest
  let config1 := config.map (fun kv => (kv.1, rewriteVal norm_src norm_dest kv.2))
  match Config.get config1 "recently_open" with
  | some (.strlist wallets) =>
    Config.set config1 "recently_open"
      (.strlist (wallets.map (fun w => pyReplace (normcase w) norm_src norm_dest)))
  | _ => config1

/-- The external collaborators of migrate_data.py, modelled from the spec:
the network module's compiled-in defaults, `SimpleConfig.default_fee_rate`,
the first entry of the fusion plugin's `DEFAULT_SERVERS`, and the running
release's `VERSION_TUPLE`. -/
structure Externals where
  DEFAULT_WHITELIST_SERVERS_ONLY : Bool
  DEFAULT_AUTO_CONNECT : Bool
  default_fee_rate : Int
  DEFAULT_SERVERS_first : Value
  VERSION_TUPLE : List Int
  deriving Repr, DecidableEq

/-- `reset_server_config(config)` (migrate_data.py:104-117). -/
def reset_server_config (E : Externals) (config : Config) : Config :=
  Config.pop (Config.pop (Config.pop (Config.pop (Config.pop
    (Config.set (Config.set (Config.set config
      "whitelist_servers_only" (.boolean E.DEFAULT_WHITELIST_SERVERS_ONLY))
      "auto_connect" (.boolean E.DEFAULT_AUTO_CONNECT))
      "server" (.str ""))
    "server_whitelist_added") "server_whitelist_removed") "server_blacklist")
    "rpcuser") "rpcpassword"

/-- migrate_data.py:23-27: CashFusion hosts that trigger the server fixup. -/
def INVALID_FUSION_HOSTS : List String :=
  ["cashfusion.electroncash.dk", "161.97.82.60"]

/-- migrate_data.py:31: superseded historical fee defaults. -/
def OLD_DEFAULT_FEES : List Int := [80000, 10000]

/-- Python tuple comparison `a >= b` on integer tuples (lexicographic; a
proper prefix is smaller than the longer tuple). -/
def pyGe : List Int → List Int → Bool
  | [], [] => true
  | [], _ :: _ => false
  | _ :: _, [] => true
  | a :: as, b :: bs => if b < a then true else if a < b then false else pyGe as bs

theorem pyGe_refl (a : List Int) : pyGe a a = true := by
  induction a with
  | nil => rfl
  | cons x xs ih => simp [pyGe, ih]

theorem pyGe_total (a b : List Int) : pyGe a b = true ∨ pyGe b a = true := by
  induction a generalizing b with
  | nil => cases b <;> simp [pyGe]
  | cons x xs ih =>
    cases b with
    | nil => simp [pyGe]
    | cons y ys =>
      rcases lt_trichotomy x y with h | h | h
      · right; simp [pyGe, h]
      · subst h
        rcases ih ys with h' | h'
        · left; simp [pyGe, h']
        · right; simp [pyGe, h']
      · left; simp [pyGe, h]

/-- `tuple(config_version)` succeeds and compares against `VERSION_TUPLE`
only when the stored marker is a tuple/list of integers; any other stored
shape raises `TypeError` in Python (either at `tuple()` or at `>=`). -/
def asIntList : Value → Option (List Int)
  | .intlist l => some l
  | _ => none

/-- `config.get("fee_per_kb") in OLD_DEFAULT_FEES`: Python `in` compares with
`==`; only an integer value can equal a member of the list (an absent key
yields `None`, which matches nothing). -/
def feeMatches : Option Value → Bool
  | some (.num n) => OLD_DEFAULT_FEES.contains n
  | _ => false

/-- `previous_host in INVALID_FUSION_HOSTS`: only a string can equal a member
of the deny-list. -/
def hostMatches : Value → Bool
  | .str s => INVALID_FUSION_HOSTS.contains s
  | _ => false

/-- Python `v[0]` on a config value: sequences yield their first element
(raising `IndexError` when empty, including on an empty string), tuples yield
the host, and non-subscriptable values raise `TypeError`. -/
def pyIndexZero : Value → Except String Value
  | .strlist [] => .error "IndexError"
  | .strlist (s :: _) => .ok (.str s)
  | .intlist [] => .error "IndexError"
  | .intlist (n :: _) => .ok (.num n)
  | .str s =>
    match s.data with
    | [] => .error "IndexError"
    | c :: _ => .ok (.str (String.singleton c))
  | .serverTuple host _ _ => .ok (.str host)
  | .num _ => .error "TypeError"
  | .boolean _ => .error "TypeError"

/-- Result of `update_config`: the stored config after the call (unchanged
when nothing was written) and whether `save_user_config` ran. -/
structure UpdR where
  config : Option Config
  saved : Bool
  deriving Repr, DecidableEq

/-- The fee fixup (migrate_data.py:199-201): a stored fee equal to a
superseded historical default is replaced by the current computed default. -/
def feeFixup (E : Externals) (config : Config) : Config :=
  if feeMatches (Config.get config "fee_per_kb") then
    Config.set config "fee_per_kb" (.num E.default_fee_rate)
  else config

/-- The CashFusion-server fixup (migrate_data.py:205-209): when the key is
present, `config["cashfusion_server"][0]` is read unconditionally — hence
the `pyIndexZero` error propagates — and a deny-listed host causes the whole
preference to be replaced by `DEFAULT_SERVERS[0]`. -/
def fusionFixup (E : Externals) (config : Config) : Except String Config :=
  match Config.get config "cashfusion_server" with
  | none => .ok config
  | some v =>
    match pyIndexZero v with
    | .error e => .error e
    | .ok previous_host =>
      .ok (if hostMatches previous_host then
             Config.set config "cashfusion_server" E.DEFAULT_SERVERS_first
           else config)

/-- The fixup section of `update_config` (migrate_data.py:199-212), run once
the version gate has decided the stored marker is older than the running
release: the fee fixup, the CashFusion-server fixup (whose unguarded `[0]`
can raise), and the version stamp. -/
def applyFixups (E : Externals) (config : Config) : Except String Config :=
  match fusionFixup E (feeFixup E config) with
  | .error e => .error e
  | .ok config2 => .ok (Config.set config2 "latest_version_used" (.intlist E.VERSION_TUPLE))

/-- `update_config()` (migrate_data.py:182-213), as a function of the stored
config (`none` models a missing/unreadable config file, which
`read_user_config` reports as a falsy value).  The returned `Except` carries
any uncaught Python exception; on success the `UpdR` gives the stored config
after the call and whether `save_user_config` ran. -/
def update_config (E : Externals) (stored : Option Config) : Except String UpdR :=
  match stored with
  | none => .ok ⟨none, false⟩
  | some config =>
    if config.isEmpty then .ok ⟨some config, false⟩
    else
      match asIntList ((Config.get config "latest_version_used").getD (.intlist [4, 3, 1])) with
      | none => .error "TypeError"
      | some config_version =>
        if pyGe config_version E.VERSION_TUPLE then .ok ⟨some config, false⟩
        else
          match applyFixups E config with
          | .error e => .error e
          | .ok config' => .ok ⟨some config', true⟩

/-- Content of a file in the model: opaque bytes, or a parsed config record
(modelled from the spec: `read_config_record` / `write_config_record`
serialize a config mapping at a directory). -/
inductive Content where
  | raw (s : String)
  | conf (c : Config)
  deriving Repr, DecidableEq

/-- A filesystem: the set of existing directory paths and the existing files
(absolute slash-separated paths; parents of listed paths are directories). -/
structure FS where
  dirs : List String
  files : List (String × Content)
  deriving Repr, DecidableEq

def fileContent (fs : FS) (p : String) : Option Content :=
  (fs.files.find? (fun f => f.1 == p)).map (fun f => f.2)

/-- `os.path.isfile`. -/
def isfile (fs : FS) (p : String) : Bool :=
  (fileContent fs p).isSome

/-- `os.path.isdir`. -/
def isdir (fs : FS) (p : String) : Bool :=
  fs.dirs.contains p

/-- POSIX path resolution: a relative path is taken against the process's
current working directory (this is what makes the bare-filename `safe_rm`
calls in the cache-purge loop operate outside the cache directory). -/
def resolve (cwd p : String) : String :=
  if strStartsWith p "/" then p else cwd ++ "/" ++ p

/-- `os.remove`. -/
def os_remove (fs : FS) (p : String) : FS :=
  { fs with files := fs.files.filter (fun f => !(f.1 == p)) }

/-- `shutil.rmtree`: drop the directory and everything below it. -/
def rmtree (fs : FS) (p : String) : FS :=
  { dirs := fs.dirs.filter (fun d => !(d == p || strStartsWith d (p ++ "/"))),
    files := fs.files.filter (fun f => !(strStartsWith f.1 (p ++ "/"))) }

def setFile (fs : FS) (p : String) (c : Content) : FS :=
  if (fs.files.find? (fun f => f.1 == p)).isSome then
    { fs with files := fs.files.map (fun f => if f.1 == p then (p, c) else f) }
  else
    { fs with files := fs.files ++ [(p, c)] }

/-- The name of `p` as a direct child of directory `d`, when it is one. -/
def childName (d p : String) : Option String :=
  if strStartsWith p (d ++ "/") then
    let rest := p.data.drop (d.data.length + 1)
    if rest ≠ [] ∧ rest.contains '/' = false then some ⟨rest⟩ else none
  else none

/-- `os.listdir`: names of the direct children of `d`; raises
`FileNotFoundError` when `d` is not a directory. -/
def listdir (fs : FS) (d : String) : Except String (List String) :=
  if isdir fs d then
    .ok (fs.dirs.filterMap (childName d) ++ (fs.files.map (fun f => f.1)).filterMap (childName d))
  else .error "FileNotFoundError"

/-- The `try` body of `safe_rm` (migrate_data.py:74-78): remove a file with
`os.remove`, a directory with `shutil.rmtree`, do nothing for a nonexistent
path.  `ok = false` injects the external removal failure (`OSError` from
`os.remove`, `shutil.Error` from `rmtree`). -/
def safe_rm_body (ok : Bool) (cwd : String) (fs : FS) (path : String) : Except String FS :=
  let p := resolve cwd path
  if isfile fs p then
    if ok then .ok (os_remove fs p) else .error "OSError"
  else if isdir fs p then
    if ok then .ok (rmtree fs p) else .error "shutil.Error"
  else .ok fs

/-- `safe_rm(path)` (migrate_data.py:70-81) as seen by its caller: the
`except (OSError, shutil.Error)` clause turns those failures into a logged
warning and a normal return with the filesystem unchanged. -/
def safe_rm_exc (ok : Bool) (cwd : String) (fs : FS) (path : String) : Except String FS :=
  match safe_rm_body ok cwd fs path with
  | .ok fs' => .ok fs'
  | .error e => if e = "OSError" ∨ e = "shutil.Error" then .ok fs else .error e

/-- `safe_rm` as a total state transformer (it never raises). -/
def safe_rm (ok : Bool) (cwd : String) (fs : FS) (path : String) : FS :=
  match safe_rm_exc ok cwd fs path with
  | .ok fs' => fs'
  | .error _ => fs

/-- The successful effect of `shutil.copytree src dest`: every directory and
file under `src` reappears under `dest` (the scan snapshot precedes the
creation of `dest`, so the copy itself is not re-copied). -/
def copytree_fs (fs : FS) (src dest : String) : FS :=
  let retarget := fun (p : String) => dest ++ ⟨p.data.drop src.data.length⟩
  { dirs := fs.dirs ++
      (fs.dirs.filter (fun d => d == src || strStartsWith d (src ++ "/"))).map retarget,
    files := fs.files ++
      (fs.files.filter (fun f => strStartsWith f.1 (src ++ "/"))).map
        (fun f => (retarget f.1, f.2)) }

/-- `shutil.copytree` (modelled from the spec: an external collaborator whose
mid-copy I/O failure is abstracted by `ok = false`; the exact content of a
partially copied destination is I/O-dependent and the model keeps the
pre-call state in that case). -/
def copytree (ok : Bool) (fs : FS) (src dest : String) : Except String FS :=
  if !ok then .error "shutil.Error"
  else if !isdir fs src then .error "NotADirectoryError"
  else if isdir fs dest || isfile fs dest then .error "FileExistsError"
  else .ok (copytree_fs fs src dest)

/-- `read_user_config(path)` (modelled from the spec: parses the persisted
config of a directory, absent/empty/unparseable reported as a falsy value). -/
def read_user_config (fs : FS) (path : String) : Option Config :=
  match fileContent fs (path ++ "/config") with
  | some (.conf c) => if c.isEmpty then none else some c
  | _ => none

/-- `save_user_config(config, path)` (modelled from the spec). -/
def save_user_config (fs : FS) (path : String) (c : Config) : FS :=
  setFile fs (path ++ "/config") (.conf c)

/-- Ambient environment of a run of `migrate_data_from_ec`: the resolved
Electron Cash and Electrum ABC directories (`none` when unresolvable), the
process working directory, the abstract outcomes of external I/O
(`copyOk` for the bulk copy, `rmOk` for removals), and the external
constants. -/
structure Env where
  ec_dir : Option String
  user_dir : Option String
  cwd : String
  copyOk : Bool
  rmOk : Bool
  E : Externals
  deriving Repr, DecidableEq

/-- One side-effecting call performed by the migration pipeline, recording
the argument strings exactly as the source passes them. -/
inductive Act where
  | copytreeCall (src dest : String)
  | rmCall (path : String)
  | listdirCall (d : String)
  | readConfCall (d : String)
  | saveConfCall (d : String)
  deriving Repr, DecidableEq

/-- The outcome of running the pipeline: final filesystem, the trace of
side-effecting calls that were actually performed, and the uncaught Python
exception (`some e`) if one propagated to the caller. -/
structure Outcome where
  fs : FS
  trace : List Act
  err : Option String
  deriving Repr, DecidableEq

/-- `migrate_data_from_ec()` (migrate_data.py:120-175), step for step:
trigger guard, bulk copy, lock-file removal, cache purge (note the loop
passes the *bare* `filename` to `safe_rm`, so the path resolves against the
process working directory), recent-servers removal, mainnet config
transformation, then the testnet profile. -/
def migrate_data_from_ec (env : Env) (fs0 : FS) : Outcome :=
  let ecExists := match env.ec_dir with | some d => isdir fs0 d | none => false
  let userExists := match env.user_dir with | some d => isdir fs0 d | none => false
  if ecExists && !userExists then
    match env.ec_dir, env.user_dir with
    | some src, some dest =>
      (match copytree env.copyOk fs0 src dest with
       | .error e => ⟨fs0, [.copytreeCall src dest], some e⟩
       | .ok fs1 =>
         let lock_file := dest ++ "/daemon"
         let hasLock := isfile fs1 lock_file
         let fs2 := if hasLock then safe_rm env.rmOk env.cwd fs1 lock_file else fs1
         let tr2 := [Act.copytreeCall src dest] ++ (if hasLock then [Act.rmCall lock_file] else [])
         let cache_dir := dest ++ "/cache"
         match listdir fs2 cache_dir with
         | .error e => ⟨fs2, tr2 ++ [.listdirCall cache_dir], some e⟩
         | .ok names =>
           let fs3 := names.foldl (fun fs n => safe_rm env.rmOk env.cwd fs n) fs2
           let tr3 := tr2 ++ [Act.listdirCall cache_dir] ++ names.map Act.rmCall
           let recent_servers_file := dest ++ "/recent-servers"
           let fs4 := safe_rm env.rmOk env.cwd fs3 recent_servers_file
           let tr4 := tr3 ++ [Act.rmCall recent_servers_file]
           let mainnet :=
             match read_user_config fs4 dest with
             | some config =>
               let c1 := reset_server_config env.E config
               let c2 :=
                 if (Config.get c1 "fee_per_kb").isSome then
                   Config.set c1 "fee_per_kb" (.num env.E.default_fee_rate)
                 else c1
               let c3 := Config.set (Config.set (Config.set c2
                 "use_labels" (.boolean false))
                 "use_cosigner_pool" (.boolean false))
                 "use_fusion" (.boolean false)
               let c4 := replace_src_dest_in_config src dest c3
               (save_user_config fs4 dest c4,
                [Act.readConfCall dest, Act.saveConfCall dest])
             | none => (fs4, [Act.readConfCall dest])
           let fs5 := mainnet.1
           let tr5 := tr4 ++ mainnet.2
           let testnet_dir := dest ++ "/testnet"
           let recent_tservers_file := testnet_dir ++ "/recent-servers"
           let fs6 := safe_rm env.rmOk env.cwd fs5 recent_tservers_file
           let tr6 := tr5 ++ [Act.rmCall recent_tservers_file]
           let testnet :=
             match read_user_config fs6 testnet_dir with
             | some tconfig =>
               let t1 := reset_server_config env.E tconfig
               let t2 := replace_src_dest_in_config src dest t1
               (save_user_config fs6 testnet_dir t2,
                [Act.readConfCall testnet_dir, Act.saveConfCall testnet_dir])
             | none => (fs6, [Act.readConfCall testnet_dir])
           ⟨testnet.1, tr6 ++ testnet.2, none⟩)
    | _, _ => ⟨fs0, [], some "TypeError"⟩
  else ⟨fs0, [], none⟩

/-- C3: for every input config, after `reset_server_config` the mapping has
`whitelist_servers_only` and `auto_connect` equal to the compiled-in
defaults, `server` equal to the empty string, and the whitelist-addition,
whitelist-removal, blacklist, `rpcuser` and `rpcpassword` keys absent. -/
theorem C3_reset_server_config (E : Externals) (c : Config) :
    Config.get (reset_server_config E c) "whitelist_servers_only"
      = some (.boolean E.DEFAULT_WHITELIST_SERVERS_ONLY) ∧
    Config.get (reset_server_config E c) "auto_connect"
      = some (.boolean E.DEFAULT_AUTO_CONNECT) ∧
    Config.get (reset_server_config E c) "server" = some (.str "") ∧
    Config.get (reset_server_config E c) "server_whitelist_added" = none ∧
    Config.get (reset_server_config E c) "server_whitelist_removed" = none ∧
    Config.get (reset_server_config E c) "server_blacklist" = none ∧
    Config.get (reset_server_config E c) "rpcuser" = none ∧
    Config.get (reset_server_config E c) "rpcpassword" = none := by
  unfold reset_server_config
  refine ⟨?_, ?_, ?_, ?_, ?_, ?_, ?_, ?_⟩ <;>
    simp [Config.get_pop_self, Config.get_pop_ne, Config.get_set_self, Config.get_set_ne]

/-- C9: `safe_rm` returns normally for every path argument — nonexistent
path, existing file, or existing directory — and even when the underlying
removal fails (`ok = false`): the `except` clause catches every error the
body can raise, so no exception ever propagates to the caller. -/
theorem C9_safe_rm_never_raises (ok : Bool) (cwd : String) (fs : FS) (path : String) :
    ∃ fs', safe_rm_exc ok cwd fs path = .ok fs' := by
  unfold safe_rm_exc safe_rm_body
  by_cases h1 : isfile fs (resolve cwd path) <;>
    by_cases h2 : isdir fs (resolve cwd path) <;>
      cases ok <;> simp [h1, h2]

theorem isPrefixOf_iff (a : List Char) : ∀ b : List Char,
    a.isPrefixOf b = true ↔ ∃ t, a ++ t = b := by
  induction a with
  | nil => intro b; simp [List.isPrefixOf]
  | cons x xs ih =>
    intro b
    cases b with
    | nil => simp [List.isPrefixOf]
    | cons y ys =>
      simp only [List.isPrefixOf, Bool.and_eq_true, beq_iff_eq, ih]
      constructor
      · rintro ⟨rfl, t, rfl⟩; exact ⟨t, rfl⟩
      · rintro ⟨t, h⟩
        injection h with h1 h2
        exact ⟨h1, t, h2⟩

theorem pyReplaceAux_nil (src dest : List Char) (f : Nat) :
    pyReplaceAux src dest f [] = [] := by
  cases f <;> rfl

/-- `str.replace` leaves a string unchanged when the pattern occurs nowhere
in it. -/
theorem pyReplaceAux_no_occ (src dest : List Char) :
    ∀ (f : Nat) (l : List Char), (¬ ∃ u t, u ++ src ++ t = l) → l.length ≤ f →
      pyReplaceAux src dest f l = l := by
  intro f
  induction f with
  | zero =>
    intro l h hf
    have hl : l = [] := List.eq_nil_of_length_eq_zero (Nat.le_zero.mp hf)
    rw [hl]; exact pyReplaceAux_nil src dest 0
  | succ f ih =>
    intro l h hf
    cases l with
    | nil => exact pyReplaceAux_nil src dest (f + 1)
    | cons c rest =>
      have hcond : ¬ (src ≠ [] ∧ src.isPrefixOf (c :: rest) = true) := by
        rintro ⟨hne, hp⟩
        obtain ⟨t, ht⟩ := (isPrefixOf_iff src (c :: rest)).mp hp
        exact h ⟨[], t, by simpa using ht⟩
      rw [pyReplaceAux, if_neg hcond]
      congr 1
      apply ih
      · rintro ⟨u, t, hut⟩
        exact h ⟨c :: u, t, by simp [hut]⟩
      · simp only [List.length_cons] at hf
        omega

theorem pyReplace_startsWith (s src dest : String) (hne : src.data ≠ [])
    (hp : strStartsWith s src = true) :
    ∃ t, (pyReplace s src dest).data = dest.data ++ t := by
  obtain ⟨t0, ht0⟩ := (isPrefixOf_iff src.data s.data).mp hp
  obtain ⟨c, cs, hsrc⟩ : ∃ c cs, src.data = c :: cs := by
    cases h' : src.data with
    | nil => exact absurd h' hne
    | cons c cs => exact ⟨c, cs, rfl⟩
  have hs : s.data = c :: (cs ++ t0) := by
    rw [← ht0, hsrc]; simp
  have hpre : src.data.isPrefixOf (c :: (cs ++ t0)) = true :=
    (isPrefixOf_iff src.data _).mpr ⟨t0, by rw [hsrc]; simp⟩
  unfold pyReplace
  rw [if_neg hne]
  show ∃ t, pyReplaceAux src.data dest.data s.data.length s.data = dest.data ++ t
  rw [hs]
  simp only [List.length_cons]
  rw [pyReplaceAux, if_pos ⟨hne, hpre⟩]
  exact ⟨_, rfl⟩

/-- A replaced string that started with `src` starts with `dest`. -/
theorem pyReplace_startsWith_dest (s src dest : String) (hne : src.data ≠ [])
    (hp : strStartsWith s src = true) :
    strStartsWith (pyReplace s src dest) dest = true := by
  obtain ⟨t, ht⟩ := pyReplace_startsWith s src dest hne hp
  exact (isPrefixOf_iff dest.data _).mpr ⟨t, ht.symm⟩

theorem pyReplace_no_occ (s src dest : String)
    (h : ¬ ∃ u t, u ++ src.data ++ t = s.data) :
    pyReplace s src dest = s := by
  have hne : src.data ≠ [] := by
    rintro hnil
    exact h ⟨[], s.data, by rw [hnil]; simp⟩
  unfold pyReplace
  rw [if_neg hne, pyReplaceAux_no_occ src.data dest.data s.data.length s.data h (le_refl _)]

theorem Config.get_map_rewrite (ns nd : String) (c : Config) (k : String) :
    Config.get (c.map (fun kv => (kv.1, rewriteVal ns nd kv.2))) k
      = (Config.get c k).map (rewriteVal ns nd) := by
  induction c with
  | nil => simp [Config.get]
  | cons kv rest ih =>
    by_cases h : kv.1 = k
    · simp [Config.get, h]
    · simp [Config.get, h, ih]

def isStr : Value → Bool
  | .str _ => true
  | _ => false

/-- The remainder of `s` after its prefix `src`: what the claim says must be
preserved unchanged after the prefix is swapped for `dest`. -/
def pathRemainder (src s : String) : String :=
  ⟨s.data.drop src.data.length⟩

theorem replace_get_ne (src dest : String) (cfg : Config) (k : String)
    (hk : k ≠ "recently_open") :
    Config.get (replace_src_dest_in_config src dest cfg) k
      = (Config.get cfg k).map (rewriteVal src dest) := by
  unfold replace_src_dest_in_config
  simp only [normcase]
  split
  · rw [Config.get_set_ne _ _ _ _ (Ne.symm hk)]
    exact Config.get_map_rewrite src dest cfg k
  · exact Config.get_map_rewrite src dest cfg k

theorem replace_get_recently_open (src dest : String) (cfg : Config) (ws : List String)
    (h : Config.get cfg "recently_open" = some (.strlist ws)) :
    Config.get (replace_src_dest_in_config src dest cfg) "recently_open"
      = some (.strlist (ws.map (fun x => pyReplace x src dest))) := by
  unfold replace_src_dest_in_config
  simp only [normcase]
  have h1 : Config.get (cfg.map fun kv => (kv.1, rewriteVal src dest kv.2)) "recently_open"
      = some (.strlist ws) := by
    rw [Config.get_map_rewrite, h]; rfl
  rw [h1]
  rw [Config.get_set_self]

/-- The property C1 claims of `replace_src_dest_in_config`: every
string-valued entry rooted at `src` becomes `dest` followed by the unchanged
remainder; every entry (including every `recently_open` entry) not rooted at
`src` is left exactly as it was. -/
def C1Claim (src dest : String) (old new : Config) : Prop :=
  (∀ k sv, Config.get old k = some (.str sv) →
     (strStartsWith sv src = true →
        Config.get new k = some (.str (dest ++ pathRemainder src sv))) ∧
     (strStartsWith sv src = false → Config.get new k = some (.str sv))) ∧
  (∀ ws, Config.get old "recently_open" = some (.strlist ws) →
     ∃ ws', Config.get new "recently_open" = some (.strlist ws') ∧
       ws'.length = ws.length ∧
       ∀ i (h : i < ws.length) (h' : i < ws'.length),
         (strStartsWith (ws.get ⟨i, h⟩) src = true →
            ws'.get ⟨i, h'⟩ = dest ++ pathRemainder src (ws.get ⟨i, h⟩)) ∧
         (strStartsWith (ws.get ⟨i, h⟩) src = false →
            ws'.get ⟨i, h'⟩ = ws.get ⟨i, h⟩))

/-- A config whose recently-open list holds a wallet path `/a/s` that is not
rooted at the legacy directory `/s` but contains it as a later substring. -/
def roConfig : Config := [("recently_open", .strlist ["/a/s"])]

/-- C1 (counterexample): with `src = "/s"`, `dest = "/d"`, the
`recently_open` entry `"/a/s"` is *not* rooted at `src`, yet
`replace_src_dest_in_config` rewrites it to `"/a/d"` (the second loop has no
`startswith` guard and `str.replace` substitutes every occurrence), so the
claimed property fails. -/
theorem C1_counterexample :
    ¬ C1Claim "/s" "/d" roConfig (replace_src_dest_in_config "/s" "/d" roConfig) := by
  intro h
  obtain ⟨-, h2⟩ := h
  obtain ⟨ws', hget, hlen, hent⟩ := h2 ["/a/s"] (by decide)
  have hnew : Config.get (replace_src_dest_in_config "/s" "/d" roConfig) "recently_open"
      = some (.strlist ["/a/d"]) := by decide
  rw [hnew] at hget
  have hws : ws' = ["/a/d"] := by simpa using hget.symm
  subst hws
  have hfalse := (hent 0 (by decide) (by decide)).2 (by decide)
  exact absurd hfalse (by decide)

/-- C1 (amended): for every config and nonempty legacy path `src`, after
`replace_src_dest_in_config(src, dest, config)`:
a string-valued entry that begins with `src` becomes the entry with *every*
occurrence of `src` replaced by `dest` (in particular it then begins with
`dest`); a string-valued entry that does not begin with `src` is unchanged;
a non-string entry outside `recently_open` is unchanged; and every
`recently_open` entry has every occurrence of `src` replaced by `dest`
(so an entry in which `src` occurs nowhere is unchanged, and an entry
beginning with `src` begins with `dest` afterwards — but an entry merely
*containing* `src` is rewritten as well). -/
theorem C1_path_rewrite (src dest k sv w : String) (v : Value) (ws : List String)
    (cfg : Config) (hsrc : src.data ≠ []) :
    (k ≠ "recently_open" → Config.get cfg k = some (.str sv) →
       (strStartsWith sv src = true →
          Config.get (replace_src_dest_in_config src dest cfg) k
            = some (.str (pyReplace sv src dest)) ∧
          strStartsWith (pyReplace sv src dest) dest = true) ∧
       (strStartsWith sv src = false →
          Config.get (replace_src_dest_in_config src dest cfg) k = some (.str sv))) ∧
    (k ≠ "recently_open" → Config.get cfg k = some v → isStr v = false →
       Config.get (replace_src_dest_in_config src dest cfg) k = some v) ∧
    (Config.get cfg "recently_open" = some (.strlist ws) →
       Config.get (replace_src_dest_in_config src dest cfg) "recently_open"
         = some (.strlist (ws.map (fun x => pyReplace x src dest))) ∧
       (w ∈ ws →
          ((¬ ∃ u t, u ++ src.data ++ t = w.data) → pyReplace w src dest = w) ∧
          (strStartsWith w src = true →
             strStartsWith (pyReplace w src dest) dest = true))) := by
  refine ⟨?_, ?_, ?_⟩
  · intro hk hget
    have h := replace_get_ne src dest cfg k hk
    rw [hget] at h
    simp only [Option.map_some'] at h
    constructor
    · intro hsw
      refine ⟨?_, pyReplace_startsWith_dest sv src dest hsrc hsw⟩
      rw [h]
      simp [rewriteVal, normcase, hsw]
    · intro hsw
      rw [h]
      simp [rewriteVal, normcase, hsw]
  · intro hk hget hstr
    have h := replace_get_ne src dest cfg k hk
    rw [hget] at h
    simp only [Option.map_some'] at h
    rw [h]
    cases v <;> simp_all [rewriteVal, isStr]
  · intro hro
    refine ⟨replace_get_recently_open src dest cfg ws hro, ?_⟩
    intro _
    exact ⟨fun hno => pyReplace_no_occ w src dest hno,
           fun hsw => pyReplace_startsWith_dest w src dest hsrc hsw⟩

/-- A sample mainnet config for exercising the amended C1 statement. -/
def sampleC1Config : Config :=
  [("wallet_path", .str "/s/w"), ("gap_limit", .num 20),
   ("recently_open", .strlist ["/x"])]

/-- Witness for the amended C1 theorem at a concrete input. -/
theorem C1_path_rewrite_witness :
    Config.get (replace_src_dest_in_config "/s" "/d" sampleC1Config) "wallet_path"
      = some (.str (pyReplace "/s/w" "/s" "/d")) ∧
    strStartsWith (pyReplace "/s/w" "/s" "/d") "/d" = true :=
  ((C1_path_rewrite "/s" "/d" "wallet_path" "/s/w" "/x" (.num 20) ["/x"]
      sampleC1Config (by decide)).1 (by decide) (by decide)).1 (by decide)

theorem feeMatches_iff (ov : Option Value) :
    feeMatches ov = true ↔ (ov = some (.num 80000) ∨ ov = some (.num 10000)) := by
  cases ov with
  | none => simp [feeMatches]
  | some v => cases v <;> simp [feeMatches, OLD_DEFAULT_FEES]

theorem feeFixup_get_other (E : Externals) (c : Config) (k : String)
    (hk : k ≠ "fee_per_kb") :
    Config.get (feeFixup E c) k = Config.get c k := by
  unfold feeFixup
  split
  · exact Config.get_set_ne c "fee_per_kb" k _ (Ne.symm hk)
  · rfl

theorem fusionFixup_ok_get (E : Externals) (c c2 : Config) (k : String)
    (hk : k ≠ "cashfusion_server") (h : fusionFixup E c = .ok c2) :
    Config.get c2 k = Config.get c k := by
  unfold fusionFixup at h
  split at h
  · injection h with h'; rw [← h']
  · split at h
    · exact absurd h (by simp)
    · injection h with h'
      rw [← h']
      split
      · exact Config.get_set_ne c "cashfusion_server" k _ (Ne.symm hk)
      · rfl

theorem applyFixups_ok_marker (E : Externals) (c c' : Config)
    (h : applyFixups E c = .ok c') :
    Config.get c' "latest_version_used" = some (.intlist E.VERSION_TUPLE) := by
  unfold applyFixups at h
  split at h
  · exact absurd h (by simp)
  · injection h with h'
    rw [← h']
    exact Config.get_set_self _ _ _

theorem applyFixups_ok_fee (E : Externals) (c c' : Config)
    (h : applyFixups E c = .ok c') :
    Config.get c' "fee_per_kb" = Config.get (feeFixup E c) "fee_per_kb" := by
  unfold applyFixups at h
  split at h
  · exact absurd h (by simp)
  · next c2 heq =>
    injection h with h'
    rw [← h']
    rw [Config.get_set_ne _ _ _ _ (by decide)]
    exact fusionFixup_ok_get E (feeFixup E c) c2 "fee_per_kb" (by decide) heq

theorem applyFixups_error_of_empty_fusion (E : Externals) (c : Config)
    (hcf : Config.get c "cashfusion_server" = some (.strlist [])
         ∨ Config.get c "cashfusion_server" = some (.intlist [])
         ∨ Config.get c "cashfusion_server" = some (.str "")) :
    applyFixups E c = .error "IndexError" := by
  have hfee : Config.get (feeFixup E c) "cashfusion_server"
      = Config.get c "cashfusion_server" :=
    feeFixup_get_other E c "cashfusion_server" (by decide)
  unfold applyFixups fusionFixup
  rcases hcf with h | h | h <;> rw [hfee, h] <;> rfl

theorem update_config_of_ge (E : Externals) (c : Config) (vs : List Int)
    (hv : asIntList ((Config.get c "latest_version_used").getD (.intlist [4, 3, 1])) = some vs)
    (hge : pyGe vs E.VERSION_TUPLE = true) :
    update_config E (some c) = .ok ⟨some c, false⟩ := by
  unfold update_config
  cases h0 : c.isEmpty with
  | true => simp [h0]
  | false => simp [h0, hv, hge]

theorem update_config_of_lt (E : Externals) (c : Config) (vs : List Int)
    (h0 : c.isEmpty = false)
    (hv : asIntList ((Config.get c "latest_version_used").getD (.intlist [4, 3, 1])) = some vs)
    (hlt : pyGe vs E.VERSION_TUPLE = false) :
    update_config E (some c)
      = (match applyFixups E c with
         | .error e => .error e
         | .ok config' => .ok ⟨some config', true⟩) := by
  unfold update_config
  simp [h0, hv, hlt]

/-- C4: the version gate of `update_config`.  If the stored marker (an
integer tuple, defaulting to `(4, 3, 1)` when absent) is greater than or
equal to the running `VERSION_TUPLE` — in particular when it comes from a
newer/future release — the call changes nothing, applies no fixup and saves
nothing; and whenever a call returns normally, the marker of the resulting
stored config is greater than or equal to the input's marker, so the marker
is monotonically non-decreasing across successive calls. -/
theorem C4_version_gate (E : Externals) (c c' : Config) (vs vs' : List Int) (sv : Bool)
    (hv : asIntList ((Config.get c "latest_version_used").getD (.intlist [4, 3, 1])) = some vs) :
    (pyGe vs E.VERSION_TUPLE = true → update_config E (some c) = .ok ⟨some c, false⟩) ∧
    (update_config E (some c) = .ok ⟨some c', sv⟩ →
       asIntList ((Config.get c' "latest_version_used").getD (.intlist [4, 3, 1])) = some vs' →
       pyGe vs' vs = true) := by
  constructor
  · intro hge
    exact update_config_of_ge E c vs hv hge
  · intro hok hv'
    cases hge : pyGe vs E.VERSION_TUPLE with
    | true =>
      rw [update_config_of_ge E c vs hv hge] at hok
      simp only [Except.ok.injEq, UpdR.mk.injEq, Option.some.injEq] at hok
      obtain ⟨hc, -⟩ := hok
      subst hc
      rw [hv] at hv'
      have : vs = vs' := by simpa using hv'
      subst this
      exact pyGe_refl vs
    | false =>
      cases h0 : c.isEmpty with
      | true =>
        have hupd : update_config E (some c) = .ok ⟨some c, false⟩ := by
          unfold update_config; simp [h0]
        rw [hupd] at hok
        simp only [Except.ok.injEq, UpdR.mk.injEq, Option.some.injEq] at hok
        obtain ⟨hc, -⟩ := hok
        subst hc
        rw [hv] at hv'
        have : vs = vs' := by simpa using hv'
        subst this
        exact pyGe_refl vs
      | false =>
        rw [update_config_of_lt E c vs h0 hv hge] at hok
        split at hok
        · exact absurd hok (by simp)
        · next cfg2 heq =>
          simp only [Except.ok.injEq, UpdR.mk.injEq, Option.some.injEq] at hok
          obtain ⟨hc, -⟩ := hok
          subst hc
          rw [applyFixups_ok_marker E c _ heq] at hv'
          have hvs' : E.VERSION_TUPLE = vs' := by simpa [asIntList] using hv'
          subst hvs'
          rcases pyGe_total vs E.VERSION_TUPLE with h | h
          · exact absurd h (by simp [hge])
          · exact h

deriving instance DecidableEq for Except

/-- Concrete external constants for exercising the theorems: the running
release is 5.0.2 and the computed default fee rate is 5000. -/
def sampleExternals : Externals :=
  ⟨true, true, 5000, .serverTuple "fusion.example.org" 8789 true, [5, 0, 2]⟩

/-- Witness for C4 at a concrete input: a marker from a future release
(9.9.9 vs running 5.0.2) leaves the stored config untouched and unsaved. -/
theorem C4_version_gate_witness :
    update_config sampleExternals (some [("latest_version_used", .intlist [9, 9, 9])])
      = .ok ⟨some [("latest_version_used", .intlist [9, 9, 9])], false⟩ :=
  (C4_version_gate sampleExternals [("latest_version_used", .intlist [9, 9, 9])]
      [] [9, 9, 9] [] false (by decide)).1 (by decide)

/-- C6: the fee fixup boundary.  When the stored marker is strictly older
than the running version and the call returns normally, a stored
`fee_per_kb` of 80000 or 10000 (the superseded historical defaults) is
replaced by the current computed default fee rate, and any other stored
value — e.g. 5000, a non-integer value, or an absent key — is unchanged. -/
theorem C6_fee_fixup (E : Externals) (c c' : Config) (vs : List Int) (sv : Bool)
    (fv : Option Value)
    (hv : asIntList ((Config.get c "latest_version_used").getD (.intlist [4, 3, 1])) = some vs)
    (hlt : pyGe vs E.VERSION_TUPLE = false)
    (hok : update_config E (some c) = .ok ⟨some c', sv⟩)
    (hfv : Config.get c "fee_per_kb" = fv) :
    ((fv = some (.num 80000) ∨ fv = some (.num 10000)) →
       Config.get c' "fee_per_kb" = some (.num E.default_fee_rate)) ∧
    (feeMatches fv = false → Config.get c' "fee_per_kb" = fv) := by
  cases h0 : c.isEmpty with
  | true =>
    have hcnil : c = [] := by
      cases c with
      | nil => rfl
      | cons kv rest => simp [List.isEmpty] at h0
    subst hcnil
    have hupd : update_config E (some ([] : Config)) = .ok ⟨some [], false⟩ := by
      unfold update_config; simp
    rw [hupd] at hok
    simp only [Except.ok.injEq, UpdR.mk.injEq, Option.some.injEq] at hok
    obtain ⟨hc, -⟩ := hok
    have hfn : fv = none := by rw [← hfv]; rfl
    subst hfn
    constructor
    · rintro (h | h) <;> exact absurd h (by simp)
    · intro _
      rw [← hc]
      rfl
  | false =>
    rw [update_config_of_lt E c vs h0 hv hlt] at hok
    split at hok
    · exact absurd hok (by simp)
    · next cfg2 heq =>
      simp only [Except.ok.injEq, UpdR.mk.injEq, Option.some.injEq] at hok
      obtain ⟨hc, -⟩ := hok
      subst hc
      have hfee := applyFixups_ok_fee E c _ heq
      constructor
      · intro hold
        have hm : feeMatches (Config.get c "fee_per_kb") = true := by
          rw [hfv]; exact (feeMatches_iff fv).mpr hold
        rw [hfee]
        unfold feeFixup
        rw [if_pos hm]
        exact Config.get_set_self c "fee_per_kb" _
      · intro hnm
        have hm : feeMatches (Config.get c "fee_per_kb") = false := by
          rw [hfv]; exact hnm
        rw [hfee]
        unfold feeFixup
        rw [if_neg (by simp [hm])]
        exact hfv

/-- Witness for C6 at a concrete input: stored fee 80000 with marker 4.3.1
and running version 5.0.2 is replaced by the computed default 5000. -/
theorem C6_fee_fixup_witness :
    Config.get [("latest_version_used", .intlist [5, 0, 2]), ("fee_per_kb", .num 5000)]
      "fee_per_kb" = some (.num sampleExternals.default_fee_rate) :=
  (C6_fee_fixup sampleExternals
      [("latest_version_used", .intlist [4, 3, 1]), ("fee_per_kb", .num 80000)]
      [("latest_version_used", .intlist [5, 0, 2]), ("fee_per_kb", .num 5000)]
      [4, 3, 1] true (some (.num 80000))
      (by decide) (by decide) (by decide) (by decide)).1 (by decide)

/-- A config whose CashFusion server preference is an empty list and whose
stored marker (4.3.1) predates the running release. -/
def emptyFusionConfig : Config :=
  [("latest_version_used", .intlist [4, 3, 1]), ("cashfusion_server", .strlist [])]

/-- C7 (counterexample): this config's stored marker (4.3.1) is strictly
below the running version (5.0.2), yet `update_config` does not stamp and
persist anything — it raises `IndexError` out of the fusion fixup first, so
the promised unconditional write never happens. -/
theorem C7_counterexample :
    pyGe [4, 3, 1] sampleExternals.VERSION_TUPLE = false ∧
    update_config sampleExternals (some emptyFusionConfig) = .error "IndexError" := by
  constructor
  · decide
  · decide

/-- C7 (amended): whenever `update_config` finds a non-empty config record
whose stored version marker is strictly less than the running version tuple
*and the call completes without raising*, it sets `latest_version_used` to
the running version tuple and persists the record (`saved = true`), even if
neither the fee fixup nor the fusion-server fixup condition matched. -/
theorem C7_version_stamp (E : Externals) (c cc : Config) (vs : List Int) (sv : Bool)
    (hne : c ≠ [])
    (hv : asIntList ((Config.get c "latest_version_used").getD (.intlist [4, 3, 1])) = some vs)
    (hlt : pyGe vs E.VERSION_TUPLE = false)
    (hok : update_config E (some c) = .ok ⟨some cc, sv⟩) :
    sv = true ∧ Config.get cc "latest_version_used" = some (.intlist E.VERSION_TUPLE) := by
  have h0 : c.isEmpty = false := by
    cases c with
    | nil => exact absurd rfl hne
    | cons kv rest => rfl
  rw [update_config_of_lt E c vs h0 hv hlt] at hok
  split at hok
  · exact absurd hok (by simp)
  · next cfg2 heq =>
    simp only [Except.ok.injEq, UpdR.mk.injEq, Option.some.injEq] at hok
    obtain ⟨hc, hsv⟩ := hok
    subst hc
    exact ⟨hsv.symm, applyFixups_ok_marker E c _ heq⟩

/-- Witness for the amended C7 at a concrete input: a config with an old
marker and no matching fixup condition still gets stamped and saved. -/
theorem C7_version_stamp_witness :
    (true : Bool) = true ∧
    Config.get [("latest_version_used", .intlist [5, 0, 2]), ("use_fusion", .boolean false)]
      "latest_version_used" = some (.intlist sampleExternals.VERSION_TUPLE) :=
  C7_version_stamp sampleExternals
    [("latest_version_used", .intlist [4, 3, 1]), ("use_fusion", .boolean false)]
    [("latest_version_used", .intlist [5, 0, 2]), ("use_fusion", .boolean false)]
    [4, 3, 1] true (by decide) (by decide) (by decide) (by decide)

/-- C10: for every config whose stored marker is an integer tuple strictly
below the running version and which maps `cashfusion_server` to an empty
sequence (empty list, empty tuple or empty string), `update_config` raises
`IndexError`: it reads element 0 of the value before comparing it to the
deny-list, with no guard for emptiness. -/
theorem C10_fusion_empty_crash (E : Externals) (c : Config) (vs : List Int)
    (hv : asIntList ((Config.get c "latest_version_used").getD (.intlist [4, 3, 1])) = some vs)
    (hlt : pyGe vs E.VERSION_TUPLE = false)
    (hcf : Config.get c "cashfusion_server" = some (.strlist [])
         ∨ Config.get c "cashfusion_server" = some (.intlist [])
         ∨ Config.get c "cashfusion_server" = some (.str "")) :
    update_config E (some c) = .error "IndexError" := by
  have h0 : c.isEmpty = false := by
    cases c with
    | nil => rcases hcf with h | h | h <;> exact absurd h (by simp [Config.get])
    | cons kv rest => rfl
  rw [update_config_of_lt E c vs h0 hv hlt]
  rw [applyFixups_error_of_empty_fusion E c hcf]

/-- Witness for C10 at a concrete input. -/
theorem C10_fusion_empty_crash_witness :
    update_config sampleExternals
      (some [("fee_per_kb", .num 123), ("cashfusion_server", .intlist []),
             ("latest_version_used", .intlist [4, 3, 1])])
      = .error "IndexError" :=
  C10_fusion_empty_crash sampleExternals
    [("fee_per_kb", .num 123), ("cashfusion_server", .intlist []),
     ("latest_version_used", .intlist [4, 3, 1])]
    [4, 3, 1] (by decide) (by decide) (Or.inr (Or.inl (by decide)))

/-- The environment for the cache-purge scenario: legacy dir `/e`, new dir
`/a`, process working directory `/t`, all external I/O succeeding. -/
def cacheEnv : Env := ⟨some "/e", some "/a", "/t", true, true, sampleExternals⟩

/-- A legacy directory whose cache subdirectory holds one exchange-rate
file. -/
def cacheFS : FS := ⟨["/e", "/e/cache"], [("/e/cache/rates.json", .raw "rates")]⟩

/-- C2 (evaluation at the failing input): the pipeline completes without
error, the cache-purge loop passes the *bare* name `rates.json` to
`safe_rm` — which resolves against the working directory `/t`, not against
`/a/cache` — and the copied cache file `/a/cache/rates.json` therefore
*survives* the migration, contradicting the claim that every entry inside
the destination's cache subdirectory is deleted. -/
theorem C2_cache_purge_eval :
    (migrate_data_from_ec cacheEnv cacheFS).err = none ∧
    isfile (migrate_data_from_ec cacheEnv cacheFS).fs "/a/cache/rates.json" = true ∧
    (migrate_data_from_ec cacheEnv cacheFS).trace
      = [Act.copytreeCall "/e" "/a", Act.listdirCall "/a/cache",
         Act.rmCall "rates.json", Act.rmCall "/a/recent-servers",
         Act.readConfCall "/a", Act.rmCall "/a/testnet/recent-servers",
         Act.readConfCall "/a/testnet"] := by
  refine ⟨?_, ?_, ?_⟩ <;> decide

/-- The trigger guard of `migrate_data_from_ec`: when this application's
user directory exists, the pipeline performs no action, changes nothing and
raises nothing, regardless of the legacy directory's state. -/
theorem migrate_noop_of_user_dir (env : Env) (fs : FS) (d : String)
    (hd : env.user_dir = some d) (h : isdir fs d = true) :
    migrate_data_from_ec env fs = ⟨fs, [], none⟩ := by
  unfold migrate_data_from_ec
  rw [hd]
  simp [h]

/-- The environment for the re-run scenario: the destination `/s/b` sits
inside the legacy directory's parent chain and the working directory is
`/s`, so the cwd-relative cache-purge deletions can hit the destination. -/
def rerunEnv : Env := ⟨some "/s", some "/s/b", "/s", true, true, sampleExternals⟩

/-- A legacy directory whose cache holds files named `b` and `cache` — the
names that, resolved against the working directory `/s`, denote the freshly
copied destination `/s/b` and the legacy cache `/s/cache` themselves. -/
def rerunFS : FS := ⟨["/s", "/s/cache"],
  [("/s/cache/b", .raw "x"), ("/s/cache/cache", .raw "y")]⟩

/-- C5 (counterexample): the first run completes without raising, but its
cwd-relative cache-purge deletions remove the destination directory itself,
so a second run re-triggers, re-copies and then raises out of `os.listdir` —
leaving a different end state than the single run did.  Running the pipeline
twice is therefore not the same as running it once. -/
theorem C5_counterexample :
    (migrate_data_from_ec rerunEnv rerunFS).err = none ∧
    (migrate_data_from_ec rerunEnv (migrate_data_from_ec rerunEnv rerunFS).fs).fs
      ≠ (migrate_data_from_ec rerunEnv rerunFS).fs := by
  refine ⟨?_, ?_⟩ <;> decide

/-- C5 (amended): whenever the application's own user directory exists, the
pipeline modifies nothing at all — no action, no error — regardless of the
legacy directory's state; consequently, whenever the destination directory
still exists after a first run (which the cwd-relative cache-purge deletions
can defeat, but every ordinary run guarantees), a second run is a no-op and
the end state after two runs equals the end state after one. -/
theorem C5_rerun_noop (env : Env) (fs : FS) (d : String)
    (hd : env.user_dir = some d) :
    (isdir fs d = true → migrate_data_from_ec env fs = ⟨fs, [], none⟩) ∧
    (isdir (migrate_data_from_ec env fs).fs d = true →
       migrate_data_from_ec env ((migrate_data_from_ec env fs).fs)
         = ⟨(migrate_data_from_ec env fs).fs, [], none⟩) := by
  exact ⟨migrate_noop_of_user_dir env fs d hd,
         migrate_noop_of_user_dir env (migrate_data_from_ec env fs).fs d hd⟩

/-- A filesystem in which the destination directory `/s/b` already exists. -/
def existingDestFS : FS := ⟨["/s", "/s/b"], []⟩

/-- Witness for the amended C5 at a concrete input: with the destination
present, the pipeline is a pure no-op. -/
theorem C5_rerun_noop_witness :
    migrate_data_from_ec rerunEnv existingDestFS = ⟨existingDestFS, [], none⟩ :=
  (C5_rerun_noop rerunEnv existingDestFS "/s/b" rfl).1 (by decide)

/-- C8: when the bulk recursive copy fails, the exception propagates to the
caller and none of the subsequent scrubbing steps runs: the trace holds the
attempted copy and nothing else — no removal, no cache listing, no config
read or write. -/
theorem C8_copy_failure_aborts (env : Env) (fs : FS) (src dest : String)
    (hsrc : env.ec_dir = some src) (hdest : env.user_dir = some dest)
    (hec : isdir fs src = true) (huser : isdir fs dest = false)
    (hfail : env.copyOk = false) :
    (migrate_data_from_ec env fs).err = some "shutil.Error" ∧
    (migrate_data_from_ec env fs).trace = [Act.copytreeCall src dest] ∧
    (migrate_data_from_ec env fs).fs = fs := by
  unfold migrate_data_from_ec
  rw [hsrc, hdest]
  simp [hec, huser, copytree, hfail]

/-- An environment whose bulk copy is doomed to fail. -/
def failCopyEnv : Env := ⟨some "/e", some "/a", "/t", false, true, sampleExternals⟩

/-- Witness for C8 at a concrete input. -/
theorem C8_copy_failure_aborts_witness :
    (migrate_data_from_ec failCopyEnv ⟨["/e"], []⟩).err = some "shutil.Error" ∧
    (migrate_data_from_ec failCopyEnv ⟨["/e"], []⟩).trace = [Act.copytreeCall "/e" "/a"] ∧
    (migrate_data_from_ec failCopyEnv ⟨["/e"], []⟩).fs = ⟨["/e"], []⟩ :=
  C8_copy_failure_aborts failCopyEnv ⟨["/e"], []⟩ "/e" "/a"
    rfl rfl (by decide) (by decide) rfl
